import Mathlib

/-!
A shallow embedding of the conversation-session manager in
`src/components/ChatInterface.tsx`: the component-local state, the
`initializeSession` provisioner, the `handleSubmit` exchange flow, the
credential-change handlers, and the error-message extraction chain.

State mutations (`setMessages`, `setIsLoading`, ...) and network calls are
modelled as an explicit list of events emitted in source order; folding the
events over a state gives the big-step semantics, and intermediate states are
prefixes of the fold.  The remote Sensay API is an environment fixing the
outcome of each call.  JavaScript truthiness on strings (empty string is
falsy) is modelled explicitly wherever the source branches on it.
-/

namespace CareerAI

/-- Modelled from the spec: the fixed demo end-user identifier
(`SAMPLE_USER_ID` is imported from `@/constants/auth`, a file absent from
`src/`; the spec calls it "a fixed identifier"). The concrete string is
arbitrary; every theorem below is parametric in it. -/
def SAMPLE_USER_ID : String := "sample-user"

/-- Modelled from the spec: the fixed demo replica slug
(`SAMPLE_REPLICA_SLUG` from the absent `@/constants/auth`; the spec calls it
"a fixed demo slug"). -/
def SAMPLE_REPLICA_SLUG : String := "sample-replica"

/-- Modelled from the spec: the API version constant (`API_VERSION` from the
absent `@/constants/auth`). -/
def API_VERSION : String := "2025-03-25"

/-- `ChatMessage.role` in the source: `'user' | 'assistant' | 'system'`. -/
inductive Role
  | user
  | assistant
  | system
deriving DecidableEq, Repr

/-- The `ChatMessage` interface of the source. -/
structure ChatMessage where
  role : Role
  content : String
  name : Option String := none
deriving DecidableEq, Repr

/-- The `llm` configuration object passed to `postV1Replicas`. -/
structure LlmConfig where
  model : String
  memoryMode : String
  systemMessage : String
deriving DecidableEq, Repr

/-- The request body passed to `postV1Replicas`. -/
structure ReplicaRequest where
  name : String
  shortDescription : String
  greeting : String
  slug : String
  ownerID : String
  llm : LlmConfig
deriving DecidableEq, Repr

/-- The fields of a replica record that `initializeSession` reads. -/
structure ReplicaRecord where
  slug : String
  uuid : String
deriving DecidableEq, Repr

/-- The network calls the component can issue, with the credential headers
each client attaches (`X-ORGANIZATION-SECRET`, and `X-USER-ID` for
user-scoped clients) and the request arguments. -/
inductive ApiCall
  | getUser (orgSecret : String) (id : String)
  | createUser (orgSecret : String) (apiVersion : String)
      (id : String) (email : String) (userName : String)
  | listReplicas (orgSecret : String) (userId : String)
  | createReplica (orgSecret : String) (userId : String)
      (apiVersion : String) (req : ReplicaRequest)
  | chatCompletion (orgSecret : String) (userId : String)
      (replicaUuid : String) (apiVersion : String)
      (content : String) (source : String) (skipChatHistory : Bool)
deriving DecidableEq, Repr

/-- The `error` field of a thrown object, as probed by the extraction chain:
absent/falsy, a string, or an object with an optional `message` and a
`JSON.stringify` rendering. -/
inductive ErrorField
  | absent
  | str (s : String)
  | obj (message : Option String) (stringified : String)
deriving DecidableEq, Repr

/-- The `response.data` field of a thrown object: absent/falsy, a string, or
an object with optional nested `error.message`, optional `message`, and a
`JSON.stringify` rendering. -/
inductive RespData
  | absent
  | str (s : String)
  | obj (errorMessage : Option String) (message : Option String)
      (stringified : String)
deriving DecidableEq, Repr

/-- The `response` field of a thrown object: an HTTP status and a data
payload. -/
structure RespObj where
  status : Nat
  data : RespData
deriving DecidableEq, Repr

/-- A thrown plain object, restricted to the fields the extraction chain
probes. -/
structure ThrownObj where
  errorField : ErrorField
  message : Option String
  response : Option RespObj
deriving DecidableEq, Repr

/-- A thrown JavaScript value: an `Error` instance, a plain object, or a
primitive (which `typeof err === 'object' && err !== null` rejects). -/
inductive Thrown
  | jsError (message : String)
  | obj (o : ThrownObj)
  | prim
deriving DecidableEq, Repr

/-- JS truthiness for an optional string-valued property: present and
non-empty. -/
def truthyStr : Option String → Option String
  | some s => if s = "" then none else some s
  | none => none

/-- Truthiness of `errorObj.error`: objects are truthy, strings are truthy
iff non-empty. -/
def ErrorField.isTruthy : ErrorField → Bool
  | .absent => false
  | .str s => s ≠ ""
  | .obj _ _ => true

/-- `errorObj.error?.message`. -/
def ErrorField.messageField : ErrorField → Option String
  | .obj m _ => m
  | _ => none

/-- `typeof errorObj.error === 'string' ? errorObj.error :
JSON.stringify(errorObj.error)`. -/
def ErrorField.asDisplay : ErrorField → String
  | .str s => s
  | .obj _ stringified => stringified
  | .absent => ""

/-- Truthiness of `errorObj.response?.data`. -/
def RespData.isTruthy : RespData → Bool
  | .absent => false
  | .str s => s ≠ ""
  | .obj _ _ _ => true

/-- `respData.error?.message`. -/
def RespData.errMessage : RespData → Option String
  | .obj em _ _ => em
  | _ => none

/-- `respData.message`. -/
def RespData.messageField : RespData → Option String
  | .obj _ m _ => m
  | _ => none

/-- `typeof respData === 'string'`. -/
def RespData.isString : RespData → Bool
  | .str _ => true
  | _ => false

/-- The string value of `respData` when it is a string. -/
def RespData.asString : RespData → String
  | .str s => s
  | _ => ""

/-- `JSON.stringify(respData)`. -/
def RespData.stringify : RespData → String
  | .obj _ _ sj => sj
  | .str s => s
  | .absent => ""

/-- The initial value of `errorMessage` in the catch block of
`handleSubmit`. -/
def defaultErrorMessage : String :=
  "Failed to send message. Please check your API key and try again."

/-- The error-message extraction chain in the catch block of `handleSubmit`
(lines 204-229 of `ChatInterface.tsx`), translated branch by branch. -/
def extractErrorMessage : Thrown → String
  | .jsError m => m
  | .prim => defaultErrorMessage
  | .obj o =>
    match truthyStr o.errorField.messageField with
    | some m => m
    | none =>
      if o.errorField.isTruthy then o.errorField.asDisplay
      else
        match truthyStr o.message with
        | some m => m
        | none =>
          match o.response with
          | none => defaultErrorMessage
          | some r =>
            if r.data.isTruthy then
              match truthyStr r.data.errMessage with
              | some m => m
              | none =>
                match truthyStr r.data.messageField with
                | some m => m
                | none =>
                  if r.data.isString then r.data.asString
                  else
                    "API Error (" ++ toString r.status ++ "): " ++
                      r.data.stringify
            else defaultErrorMessage

/-- Boolean substring containment, used to state "the displayed message
contains the HTTP status code". -/
def strContains (hay needle : String) : Bool :=
  (List.range (hay.length + 1)).any fun i =>
    needle.data.isPrefixOf (hay.data.drop i)

/-- JavaScript `String.prototype.trim()`: strip leading and trailing
whitespace. -/
def jsTrim (s : String) : String :=
  ⟨((s.data.dropWhile Char.isWhitespace).reverse.dropWhile
      Char.isWhitespace).reverse⟩

/-- The component-local state of `ChatInterface`: the `useState` hooks
`messages`, `inputValue`, `isLoading`, `error`, `localApiKey`, `showConfig`,
`replicaUuid`. -/
structure ChatState where
  messages : List ChatMessage
  inputValue : String
  isLoading : Bool
  error : Option String
  localApiKey : String
  showConfig : Bool
  replicaUuid : Option String
deriving DecidableEq, Repr

/-- One state update or network call, in the order the source emits them.
`setMessages` calls appear as the concrete transformation each call site
applies: append, replace-last, or drop-last. -/
inductive Event
  | appendMessage (m : ChatMessage)
  | setLastMessage (m : ChatMessage)
  | dropLastMessage
  | setInput (v : String)
  | setLoading (b : Bool)
  | setErrorMsg (e : Option String)
  | setReplicaUuid (u : Option String)
  | apiCall (c : ApiCall)
deriving DecidableEq, Repr

/-- `newMessages[newMessages.length - 1] = m` on a JS array: replaces the
last element; on an empty array the element list is unchanged. -/
def setLast (ms : List ChatMessage) (m : ChatMessage) : List ChatMessage :=
  match ms with
  | [] => []
  | _ => ms.dropLast ++ [m]

/-- Effect of one event on the component state; network calls do not change
local state. -/
def applyEvent (s : ChatState) : Event → ChatState
  | .appendMessage m => { s with messages := s.messages ++ [m] }
  | .setLastMessage m => { s with messages := setLast s.messages m }
  | .dropLastMessage => { s with messages := s.messages.dropLast }
  | .setInput v => { s with inputValue := v }
  | .setLoading b => { s with isLoading := b }
  | .setErrorMsg e => { s with error := e }
  | .setReplicaUuid u => { s with replicaUuid := u }
  | .apiCall _ => s

/-- Big-step semantics: fold the emitted events over a state. -/
def runEvents (s : ChatState) (es : List Event) : ChatState :=
  es.foldl applyEvent s

/-- The network calls among a list of events. -/
def Event.callOf : Event → Option ApiCall
  | .apiCall c => some c
  | _ => none

/-- Project the network-call trace out of an event list. -/
def apiCallsOf (es : List Event) : List ApiCall :=
  es.filterMap Event.callOf

/-- The outcome of each remote call, fixed by the environment: the remote
Sensay API as seen by one run.  `listReplicasResult` yields `none` when
`replicas` or `replicas.items` is absent/falsy. -/
structure Env where
  getUserResult : Except Thrown Unit
  createUserResult : Except Thrown Unit
  listReplicasResult : Except Thrown (Option (List ReplicaRecord))
  createReplicaResult : Except Thrown ReplicaRecord
  completionResult : Except Thrown String

/-- The message of the `Error` thrown by `initializeSession` on any
provisioning failure. -/
def initFailureMessage : String :=
  "Failed to initialize Sensay session. Please check your API key."

/-- The fixed request body of `postV1Replicas` in `initializeSession`
(step 5). -/
def sampleReplicaRequest : ReplicaRequest :=
  { name := "Sample Replica"
    shortDescription := "A sample replica for demonstration"
    greeting := "Hello, I'm the sample replica. How can I help you today?"
    slug := SAMPLE_REPLICA_SLUG
    ownerID := SAMPLE_USER_ID
    llm :=
      { model := "claude-3-7-sonnet-latest"
        memoryMode := "prompt-caching"
        systemMessage :=
          "You are a helpful AI assistant that provides clear and concise responses." } }

/-- The body of `initializeSession` past the cache check (its `try` block,
lines 60-133): probe the demo user with the org-only client (any failure
swallowed as "does not exist"), create the user if needed, list replicas
with the user-scoped client, adopt the replica whose slug matches, else
create one; cache the uuid via `setReplicaUuid`.  Any unswallowed failure
is wrapped into the fixed `Error`. -/
def initBody (env : Env) (key : String) : Except String String × List Event :=
  let evts0 : List Event := [.apiCall (.getUser key SAMPLE_USER_ID)]
  let userExists := env.getUserResult.isOk
  let afterUser : Except Thrown Unit × List Event :=
    if userExists then (Except.ok (), evts0)
    else
      (env.createUserResult,
        evts0 ++ [.apiCall (.createUser key API_VERSION SAMPLE_USER_ID
          (SAMPLE_USER_ID ++ "@example.com") "Sample User")])
  match afterUser with
  | (.error _, evts) => (Except.error initFailureMessage, evts)
  | (.ok _, evts) =>
    let evts := evts ++ [.apiCall (.listReplicas key SAMPLE_USER_ID)]
    match env.listReplicasResult with
    | .error _ => (Except.error initFailureMessage, evts)
    | .ok items? =>
      let uuidFound : Option String :=
        match items? with
        | some items =>
          (items.find? fun r => r.slug == SAMPLE_REPLICA_SLUG).map
            fun r => r.uuid
        | none => none
      let uuidTruthy : Option String :=
        match uuidFound with
        | some u => if u = "" then none else some u
        | none => none
      match uuidTruthy with
      | some u => (Except.ok u, evts ++ [.setReplicaUuid (some u)])
      | none =>
        let evts := evts ++ [.apiCall (.createReplica key SAMPLE_USER_ID
          API_VERSION sampleReplicaRequest)]
        match env.createReplicaResult with
        | .error _ => (Except.error initFailureMessage, evts)
        | .ok newReplica =>
          (Except.ok newReplica.uuid,
            evts ++ [.setReplicaUuid (some newReplica.uuid)])

/-- `initializeSession` (lines 55-134): return the cached uuid if truthy,
else run the provisioning body. -/
def initializeSessionRun (env : Env) (key : String) (cached : Option String) :
    Except String String × List Event :=
  match cached with
  | some u => if u = "" then initBody env key else (Except.ok u, [])
  | none => initBody env key

/-- The inline validation message set when the credential is absent. -/
def missingKeyMessage : String := "Please provide an API key"

/-- `handleSubmit` (lines 136-237) as its emitted event list: validation,
optimistic user append and input clear, session initialization, the
assistant placeholder and loading flag, the completion call, and the
success/failure reconciliation.  The catch block displays
`extractErrorMessage` of the thrown value and drops the last message. -/
def handleSubmitEvents (env : Env) (s : ChatState) : List Event :=
  if jsTrim s.inputValue = "" then []
  else if s.localApiKey = "" then [.setErrorMsg (some missingKeyMessage)]
  else
    let userMessage : ChatMessage := { role := .user, content := s.inputValue }
    let pre : List Event :=
      [.setErrorMsg none, .appendMessage userMessage, .setInput ""]
    match initializeSessionRun env s.localApiKey s.replicaUuid with
    | (.error msg, initEvts) =>
      pre ++ initEvts ++
        [.setErrorMsg (some (extractErrorMessage (.jsError msg))),
         .setLoading false, .dropLastMessage]
    | (.ok replica, initEvts) =>
      let assistantMessage : ChatMessage := { role := .assistant, content := "" }
      let mid := pre ++ initEvts ++
        [.appendMessage assistantMessage, .setLoading true,
         .apiCall (.chatCompletion s.localApiKey SAMPLE_USER_ID replica
           API_VERSION userMessage.content "web" false)]
      match env.completionResult with
      | .ok content =>
        mid ++ [.setLastMessage { role := .assistant, content := content },
          .setLoading false]
      | .error thrown =>
        mid ++ [.setErrorMsg (some (extractErrorMessage thrown)),
          .setLoading false, .dropLastMessage]

/-- `handleSubmit` big-step: the state after the handler completes. -/
def handleSubmitRun (env : Env) (s : ChatState) : ChatState :=
  runEvents s (handleSubmitEvents env s)

/-- `handleApiKeyChange` (lines 49-52): store the edited credential and
reset the cached replica uuid. -/
def handleApiKeyChange (s : ChatState) (v : String) : ChatState :=
  { s with localApiKey := v, replicaUuid := none }

/-- The `useEffect` on the `apiKey` prop (lines 29-35): when the prop is
truthy, store it as the local credential and hide the config panel.  It
does not touch `replicaUuid`. -/
def apiKeyEffect (s : ChatState) (apiKey : Option String) : ChatState :=
  match apiKey with
  | some k => if k = "" then s else { s with localApiKey := k, showConfig := false }
  | none => s

/-! ### Helper lemmas about the event semantics and the provisioner -/

/-- Events emitted by `initializeSession`: network calls and the cache
update only. -/
def eventIsInit : Event → Bool
  | .apiCall _ => true
  | .setReplicaUuid _ => true
  | _ => false

/-- Recognizes a user-creation network call. -/
def ApiCall.isCreateUser : ApiCall → Bool
  | .createUser _ _ _ _ _ => true
  | _ => false

/-- Recognizes a replica-creation network call. -/
def ApiCall.isCreateReplica : ApiCall → Bool
  | .createReplica _ _ _ _ => true
  | _ => false

theorem runEvents_append (s : ChatState) (es fs : List Event) :
    runEvents s (es ++ fs) = runEvents (runEvents s es) fs :=
  List.foldl_append ..

/-- `initializeSession` only issues network calls and the cache update. -/
theorem initBody_all_init (env : Env) (key : String) :
    (initBody env key).2.all eventIsInit = true := by
  obtain ⟨g, cu, lr, cr, comp⟩ := env
  cases g <;> cases cu <;> cases lr <;> cases cr <;>
    simp [initBody, Except.isOk, Except.toBool, eventIsInit] <;>
    (repeat' split) <;>
    simp_all [eventIsInit]

theorem initRun_all_init (env : Env) (key : String) (cached : Option String) :
    (initializeSessionRun env key cached).2.all eventIsInit = true := by
  unfold initializeSessionRun
  match cached with
  | none => exact initBody_all_init env key
  | some u =>
    by_cases hu : u = "" <;> simp [hu, initBody_all_init]

/-- Every provisioning failure carries the one fixed user-facing message. -/
theorem initBody_error_msg (env : Env) (key : String) (m : String)
    (h : (initBody env key).1 = Except.error m) : m = initFailureMessage := by
  obtain ⟨g, cu, lr, cr, comp⟩ := env
  cases g <;> cases cu <;> cases lr <;> cases cr <;>
    simp_all [initBody, Except.isOk, Except.toBool] <;>
    revert h <;>
    (repeat' split) <;>
    simp_all

theorem initRun_error_msg (env : Env) (key : String) (cached : Option String)
    (m : String) (h : (initializeSessionRun env key cached).1 = Except.error m) :
    m = initFailureMessage := by
  unfold initializeSessionRun at h
  match cached with
  | none => exact initBody_error_msg env key m h
  | some u =>
    by_cases hu : u = ""
    · simp only [hu, if_pos rfl] at h
      exact initBody_error_msg env key m h
    · simp [hu] at h

/-- A successful provisioning run caches the identifier it returns. -/
theorem initBody_ok_caches (env : Env) (key : String) (u : String)
    (h : (initBody env key).1 = Except.ok u) :
    Event.setReplicaUuid (some u) ∈ (initBody env key).2 := by
  obtain ⟨g, cu, lr, cr, comp⟩ := env
  cases g <;> cases cu <;> cases lr <;> cases cr <;>
    simp_all [initBody, Except.isOk, Except.toBool] <;>
    revert h <;>
    (repeat' split) <;>
    simp_all

/-- A provisioning run issues at most one user-creation and at most one
replica-creation call. -/
theorem initBody_at_most_one_create (env : Env) (key : String) :
    (apiCallsOf (initBody env key).2).countP ApiCall.isCreateUser ≤ 1 ∧
    (apiCallsOf (initBody env key).2).countP ApiCall.isCreateReplica ≤ 1 := by
  obtain ⟨g, cu, lr, cr, comp⟩ := env
  cases g <;> cases cu <;> cases lr <;> cases cr <;>
    simp [initBody, Except.isOk, Except.toBool, apiCallsOf, Event.callOf,
      ApiCall.isCreateUser, ApiCall.isCreateReplica] <;>
    (repeat' split) <;>
    simp_all [apiCallsOf, Event.callOf, ApiCall.isCreateUser,
      ApiCall.isCreateReplica]

/-- Provisioning events leave the transcript, the input field, the loading
flag and the error banner untouched. -/
theorem runEvents_init_only (es : List Event) (h : es.all eventIsInit = true) :
    ∀ s : ChatState,
      (runEvents s es).messages = s.messages ∧
      (runEvents s es).inputValue = s.inputValue ∧
      (runEvents s es).isLoading = s.isLoading ∧
      (runEvents s es).error = s.error := by
  induction es with
  | nil => exact fun s => ⟨rfl, rfl, rfl, rfl⟩
  | cons e es ih =>
    intro s
    simp only [List.all_cons, Bool.and_eq_true] at h
    have hrec := ih h.2 (applyEvent s e)
    have h1 := h.1
    cases e <;> simp_all [eventIsInit, runEvents, applyEvent]

/-- A run that emits no `setInput` event leaves the input field untouched. -/
theorem runEvents_no_setInput (es : List Event)
    (h : ∀ v, Event.setInput v ∉ es) :
    ∀ s : ChatState, (runEvents s es).inputValue = s.inputValue := by
  induction es with
  | nil => exact fun s => rfl
  | cons e es ih =>
    intro s
    have he : ∀ v, Event.setInput v ∉ es := by
      intro v hv
      exact h v (List.mem_cons_of_mem _ hv)
    have hrec := ih he (applyEvent s e)
    cases e <;> simp_all [runEvents, applyEvent]

theorem isPrefixOf_append_self (l₁ l₂ : List Char) :
    l₁.isPrefixOf (l₁ ++ l₂) = true := by
  induction l₁ with
  | nil => simp [List.isPrefixOf]
  | cons a l ih => simp [List.isPrefixOf, ih]

/-- A string built around a middle piece contains that piece. -/
theorem strContains_append_middle (a b c : String) :
    strContains (a ++ b ++ c) b = true := by
  unfold strContains
  rw [List.any_eq_true]
  refine ⟨a.length, List.mem_range.mpr ?_, ?_⟩
  · have h1 : (a ++ b ++ c).length = a.length + b.length + c.length := by
      simp [String.length_append]
    omega
  · have hdata : (a ++ b ++ c).data = a.data ++ (b.data ++ c.data) := by
      simp [String.data_append]
    have hlen : a.length = a.data.length := rfl
    rw [hdata, hlen, List.drop_left]
    exact isPrefixOf_append_self b.data c.data

/-! ### Concrete scenarios used by the claim theorems -/

/-- An environment in which the demo-user lookup and the user creation both
fail (e.g. a network outage during provisioning). -/
def envProvisionFail : Env :=
  { getUserResult := Except.error .prim
    createUserResult := Except.error .prim
    listReplicasResult := Except.ok none
    createReplicaResult := Except.error .prim
    completionResult := Except.ok "Hi there" }

/-- An environment in which provisioning succeeds by finding the sample
replica, and the completion call returns `"Hi there"`. -/
def envFound : Env :=
  { getUserResult := Except.ok ()
    createUserResult := Except.ok ()
    listReplicasResult := Except.ok (some [{ slug := SAMPLE_REPLICA_SLUG, uuid := "uuid-1" }])
    createReplicaResult := Except.error .prim
    completionResult := Except.ok "Hi there" }

/-- Fresh component state with the credential set and `"Hello"` typed. -/
def stateHello : ChatState :=
  { messages := []
    inputValue := "Hello"
    isLoading := false
    error := none
    localApiKey := "k"
    showConfig := false
    replicaUuid := none }

/-! ### Claim theorems -/

/-- **C1.** The claim says a failed exchange always leaves the transcript at
its pre-submission contents plus exactly the one user message, including
when the failure occurs during session provisioning.  The code evaluated at
such a failing input disagrees: when `initializeSession` throws, the
assistant placeholder has not been appended yet, and the catch block's
unconditional `slice(0, -1)` removes the user's own message, leaving the
transcript at its pre-submission contents (here `[]` instead of
`[user:"Hello"]`). -/
theorem provisioning_failure_drops_user_message :
    (handleSubmitRun envProvisionFail stateHello).messages = [] ∧
    (handleSubmitRun envProvisionFail stateHello).messages ≠
      stateHello.messages ++ [{ role := Role.user, content := "Hello" }] ∧
    (handleSubmitRun envProvisionFail stateHello).error =
      some initFailureMessage := by
  decide

/-- **C2 counterexample.** A thrown payload of unrecognized shape with no
truthy `response.data` (here `{response:{status:500, data:null}}`) is
displayed as the fixed generic fallback, which does not contain the HTTP
status code `500`. -/
theorem unrecognized_payload_without_data_lacks_status :
    extractErrorMessage
      (.obj { errorField := .absent, message := none,
              response := some { status := 500, data := .absent } }) =
      defaultErrorMessage ∧
    strContains
      (extractErrorMessage
        (.obj { errorField := .absent, message := none,
                response := some { status := 500, data := .absent } }))
      "500" = false := by
  decide

/-- **C2 (amended).** Error-message extraction: `{error:{message:X}}` with
non-empty `X` displays `X`; `{message:Y}` with no `error` field and
non-empty `Y` displays `Y`; an unrecognized shape that carries a truthy
`response.data` displays a synthesized string embedding the HTTP status
code; a payload with none of the recognized fields (in particular no truthy
`response.data`) displays the fixed generic fallback. -/
theorem error_extraction_priority (X Y sj sj2 : String) (status : Nat)
    (hX : X ≠ "") (hY : Y ≠ "") :
    extractErrorMessage
      (.obj { errorField := .obj (some X) sj, message := none, response := none }) = X ∧
    extractErrorMessage
      (.obj { errorField := .absent, message := some Y, response := none }) = Y ∧
    extractErrorMessage
      (.obj { errorField := .absent, message := none,
              response := some { status := status, data := .obj none none sj2 } }) =
      "API Error (" ++ toString status ++ "): " ++ sj2 ∧
    strContains
      (extractErrorMessage
        (.obj { errorField := .absent, message := none,
                response := some { status := status, data := .obj none none sj2 } }))
      (toString status) = true ∧
    extractErrorMessage
      (.obj { errorField := .absent, message := none, response := none }) =
      defaultErrorMessage := by
  have h3 : extractErrorMessage
      (.obj { errorField := .absent, message := none,
              response := some { status := status, data := .obj none none sj2 } }) =
      "API Error (" ++ toString status ++ "): " ++ sj2 := rfl
  refine ⟨?_, ?_, h3, ?_, rfl⟩
  · simp [extractErrorMessage, ErrorField.messageField, truthyStr, hX]
  · simp [extractErrorMessage, ErrorField.messageField, ErrorField.isTruthy,
      truthyStr, hY]
  · rw [h3]
    have hmid := strContains_append_middle "API Error (" (toString status)
      ("): " ++ sj2)
    rwa [← String.append_assoc] at hmid

/-- Witness for the amended C2 theorem at concrete strings and status 500. -/
theorem error_extraction_priority_witness :
    extractErrorMessage
      (.obj { errorField := .obj (some "X") "\x7b\x7d", message := none, response := none }) = "X" ∧
    extractErrorMessage
      (.obj { errorField := .absent, message := some "Y", response := none }) = "Y" ∧
    extractErrorMessage
      (.obj { errorField := .absent, message := none,
              response := some { status := 500, data := .obj none none "\x7b\x7d" } }) =
      "API Error (" ++ toString 500 ++ "): " ++ "\x7b\x7d" ∧
    strContains
      (extractErrorMessage
        (.obj { errorField := .absent, message := none,
                response := some { status := 500, data := .obj none none "\x7b\x7d" } }))
      (toString 500) = true ∧
    extractErrorMessage
      (.obj { errorField := .absent, message := none, response := none }) =
      defaultErrorMessage :=
  error_extraction_priority "X" "Y" "\x7b\x7d" "\x7b\x7d" 500 (by decide) (by decide)

/-- **C3.** The provisioner is idempotent per credential: once a run from an
empty cache succeeds with a (non-empty) identifier, that identifier was
cached during the run, the run issued at most one user-creation and at most
one replica-creation call, and any later invocation that sees the cached
identifier returns it immediately with an empty event list — zero network
calls, whatever the environment would answer. -/
theorem provisioner_idempotent (env env' : Env) (key key' : String)
    (u : String) (evts : List Event)
    (h : initializeSessionRun env key none = (Except.ok u, evts))
    (hu : u ≠ "") :
    initializeSessionRun env' key' (some u) = (Except.ok u, []) ∧
    Event.setReplicaUuid (some u) ∈ evts ∧
    (apiCallsOf evts).countP ApiCall.isCreateUser ≤ 1 ∧
    (apiCallsOf evts).countP ApiCall.isCreateReplica ≤ 1 := by
  have hbody : initBody env key = (Except.ok u, evts) := h
  have h1 : (initBody env key).1 = Except.ok u := by rw [hbody]
  have h2 : (initBody env key).2 = evts := by rw [hbody]
  refine ⟨by simp [initializeSessionRun, hu], ?_, ?_, ?_⟩
  · rw [← h2]
    exact initBody_ok_caches env key u h1
  · rw [← h2]
    exact (initBody_at_most_one_create env key).1
  · rw [← h2]
    exact (initBody_at_most_one_create env key).2

/-- Witness for C3: in `envFound` the first run from an empty cache adopts
`"uuid-1"`; the second invocation returns it with no events. -/
theorem provisioner_idempotent_witness :
    initializeSessionRun envProvisionFail "other" (some "uuid-1") =
      (Except.ok "uuid-1", []) ∧
    Event.setReplicaUuid (some "uuid-1") ∈
      [Event.apiCall (ApiCall.getUser "k" SAMPLE_USER_ID),
       Event.apiCall (ApiCall.listReplicas "k" SAMPLE_USER_ID),
       Event.setReplicaUuid (some "uuid-1")] ∧
    (apiCallsOf
      [Event.apiCall (ApiCall.getUser "k" SAMPLE_USER_ID),
       Event.apiCall (ApiCall.listReplicas "k" SAMPLE_USER_ID),
       Event.setReplicaUuid (some "uuid-1")]).countP ApiCall.isCreateUser ≤ 1 ∧
    (apiCallsOf
      [Event.apiCall (ApiCall.getUser "k" SAMPLE_USER_ID),
       Event.apiCall (ApiCall.listReplicas "k" SAMPLE_USER_ID),
       Event.setReplicaUuid (some "uuid-1")]).countP ApiCall.isCreateReplica ≤ 1 :=
  provisioner_idempotent envFound envProvisionFail "k" "other" "uuid-1" _
    (by rfl) (by decide)

/-- A component state holding a resolved cached identifier under an old
credential. -/
def cachedState : ChatState :=
  { messages := []
    inputValue := ""
    isLoading := false
    error := none
    localApiKey := "old-key"
    showConfig := false
    replicaUuid := some "uuid-1" }

/-- **C4 counterexample.** A credential update supplied from configuration
(the `apiKey` prop effect) changes the stored credential but leaves the
cached agent identifier in place, so not every change of the credential
resets the cache to unresolved. -/
theorem prop_credential_update_keeps_cache :
    (apiKeyEffect cachedState (some "new-key")).localApiKey = "new-key" ∧
    cachedState.localApiKey ≠ "new-key" ∧
    (apiKeyEffect cachedState (some "new-key")).replicaUuid = some "uuid-1" := by
  decide

/-- **C4 (amended).** A credential edit entered in the configuration field
(`handleApiKeyChange`) stores the new credential and resets the cached
agent identifier to unresolved; a credential update supplied from
configuration (the `apiKey` prop effect) stores the credential but leaves
the cached identifier untouched. -/
theorem field_credential_change_resets_cache (s : ChatState) (v k : String)
    (hk : k ≠ "") :
    (handleApiKeyChange s v).replicaUuid = none ∧
    (handleApiKeyChange s v).localApiKey = v ∧
    (apiKeyEffect s (some k)).localApiKey = k ∧
    (apiKeyEffect s (some k)).replicaUuid = s.replicaUuid := by
  simp [handleApiKeyChange, apiKeyEffect, hk]

/-- Witness for the amended C4 theorem at a concrete cached state. -/
theorem field_credential_change_resets_cache_witness :
    (handleApiKeyChange cachedState "typed-key").replicaUuid = none ∧
    (handleApiKeyChange cachedState "typed-key").localApiKey = "typed-key" ∧
    (apiKeyEffect cachedState (some "prop-key")).localApiKey = "prop-key" ∧
    (apiKeyEffect cachedState (some "prop-key")).replicaUuid =
      cachedState.replicaUuid :=
  field_credential_change_resets_cache cachedState "typed-key" "prop-key"
    (by decide)

/-- State with whitespace-only input and no credential. -/
def silentState : ChatState :=
  { messages := []
    inputValue := "   "
    isLoading := false
    error := none
    localApiKey := ""
    showConfig := true
    replicaUuid := none }

/-- **C5 counterexample.** A submission with an absent credential and
whitespace-only input is a complete no-op: no message is appended and no
network call is made, but no inline validation message is surfaced either
(the error stays `none`), contradicting the claim that every
missing-credential submission surfaces one. -/
theorem missing_key_whitespace_submission_is_silent :
    silentState.localApiKey = "" ∧
    handleSubmitEvents envFound silentState = [] ∧
    (handleSubmitRun envFound silentState).error = none := by
  decide

/-- **C5 (amended).** A submission with empty/whitespace input is a no-op:
no events at all, the state is unchanged.  A submission with non-whitespace
input but an absent credential appends no message, makes no network call,
and surfaces the inline validation message. -/
theorem input_validation (env : Env) (s : ChatState) :
    (jsTrim s.inputValue = "" →
      handleSubmitEvents env s = [] ∧ handleSubmitRun env s = s) ∧
    (jsTrim s.inputValue ≠ "" → s.localApiKey = "" →
      handleSubmitEvents env s = [Event.setErrorMsg (some missingKeyMessage)] ∧
      (handleSubmitRun env s).messages = s.messages ∧
      (handleSubmitRun env s).error = some missingKeyMessage ∧
      apiCallsOf (handleSubmitEvents env s) = []) := by
  constructor
  · intro h
    simp [handleSubmitEvents, handleSubmitRun, runEvents, h]
  · intro h1 h2
    simp [handleSubmitEvents, handleSubmitRun, runEvents, applyEvent,
      apiCallsOf, Event.callOf, h1, h2]

/-- Witness for the amended C5 theorem: whitespace input is a silent no-op,
and non-whitespace input with no credential surfaces only the inline
validation message. -/
theorem input_validation_witness :
    (handleSubmitEvents envFound silentState = [] ∧
      handleSubmitRun envFound silentState = silentState) ∧
    (handleSubmitEvents envFound { silentState with inputValue := "Hi" } =
        [Event.setErrorMsg (some missingKeyMessage)] ∧
      (handleSubmitRun envFound { silentState with inputValue := "Hi" }).messages =
        ({ silentState with inputValue := "Hi" } : ChatState).messages ∧
      (handleSubmitRun envFound { silentState with inputValue := "Hi" }).error =
        some missingKeyMessage ∧
      apiCallsOf
        (handleSubmitEvents envFound { silentState with inputValue := "Hi" }) = []) :=
  ⟨(input_validation envFound silentState).1 (by decide),
   (input_validation envFound { silentState with inputValue := "Hi" }).2
     (by decide) (by decide)⟩

/-- **C6 counterexample.** In a successful exchange from a fresh state, the
fourth emitted event is already a provisioning network call (`getUser`),
while the transcript folded up to that point holds only the user message
(no assistant placeholder) and the in-progress flag is still off: the
provisioner runs before the placeholder is appended, not after. -/
theorem provisioning_call_precedes_placeholder :
    (handleSubmitEvents envFound stateHello).take 4 =
      [Event.setErrorMsg none,
       Event.appendMessage { role := Role.user, content := "Hello" },
       Event.setInput "",
       Event.apiCall (ApiCall.getUser "k" SAMPLE_USER_ID)] ∧
    (runEvents stateHello
        ((handleSubmitEvents envFound stateHello).take 4)).messages =
      [{ role := Role.user, content := "Hello" }] ∧
    (runEvents stateHello
        ((handleSubmitEvents envFound stateHello).take 4)).isLoading = false := by
  decide

/-- **C6 (amended).** For every accepted submission whose provisioning
succeeds, the emitted events begin with: the user message append, the input
clear, then the provisioner's events, and only then the assistant
placeholder append, the in-progress flag, and the completion call; the
state folded up to just before the completion call holds the user message
plus the placeholder and has the in-progress flag set. -/
theorem exchange_step_order (env : Env) (s : ChatState) (replica : String)
    (ievts : List Event)
    (h1 : jsTrim s.inputValue ≠ "") (h2 : s.localApiKey ≠ "")
    (hi : initializeSessionRun env s.localApiKey s.replicaUuid =
      (Except.ok replica, ievts)) :
    (handleSubmitEvents env s).take (3 + ievts.length + 3) =
      [Event.setErrorMsg none,
       Event.appendMessage { role := Role.user, content := s.inputValue },
       Event.setInput ""] ++ ievts ++
      [Event.appendMessage { role := Role.assistant, content := "" },
       Event.setLoading true,
       Event.apiCall (ApiCall.chatCompletion s.localApiKey SAMPLE_USER_ID
         replica API_VERSION s.inputValue "web" false)] ∧
    (runEvents s
      ([Event.setErrorMsg none,
        Event.appendMessage { role := Role.user, content := s.inputValue },
        Event.setInput ""] ++ ievts ++
       [Event.appendMessage { role := Role.assistant, content := "" },
        Event.setLoading true])).messages =
      s.messages ++ [{ role := Role.user, content := s.inputValue },
        { role := Role.assistant, content := "" }] ∧
    (runEvents s
      ([Event.setErrorMsg none,
        Event.appendMessage { role := Role.user, content := s.inputValue },
        Event.setInput ""] ++ ievts ++
       [Event.appendMessage { role := Role.assistant, content := "" },
        Event.setLoading true])).isLoading = true := by
  have hIEvts : ievts.all eventIsInit = true := by
    have hall := initRun_all_init env s.localApiKey s.replicaUuid
    rw [hi] at hall
    exact hall
  have hInit := runEvents_init_only ievts hIEvts
  refine ⟨?_, ?_, ?_⟩
  · unfold handleSubmitEvents
    rw [if_neg h1, if_neg h2, hi]
    cases hc : env.completionResult <;>
      simp [List.take_append_eq_append_take, List.length_append]
  · rw [List.append_assoc, runEvents_append, runEvents_append]
    have hPre := (hInit (runEvents s
      [Event.setErrorMsg none,
       Event.appendMessage { role := Role.user, content := s.inputValue },
       Event.setInput ""])).1
    simp [runEvents, applyEvent] at hPre ⊢
    rw [hPre]
    simp
  · rw [List.append_assoc, runEvents_append, runEvents_append]
    simp [runEvents, applyEvent]

/-- Witness for the amended C6 theorem in the found-replica environment. -/
theorem exchange_step_order_witness :
    (handleSubmitEvents envFound stateHello).take
        (3 + [Event.apiCall (ApiCall.getUser "k" SAMPLE_USER_ID),
              Event.apiCall (ApiCall.listReplicas "k" SAMPLE_USER_ID),
              Event.setReplicaUuid (some "uuid-1")].length + 3) =
      [Event.setErrorMsg none,
       Event.appendMessage { role := Role.user, content := "Hello" },
       Event.setInput ""] ++
      [Event.apiCall (ApiCall.getUser "k" SAMPLE_USER_ID),
       Event.apiCall (ApiCall.listReplicas "k" SAMPLE_USER_ID),
       Event.setReplicaUuid (some "uuid-1")] ++
      [Event.appendMessage { role := Role.assistant, content := "" },
       Event.setLoading true,
       Event.apiCall (ApiCall.chatCompletion "k" SAMPLE_USER_ID "uuid-1"
         API_VERSION "Hello" "web" false)] ∧
    (runEvents stateHello
      ([Event.setErrorMsg none,
        Event.appendMessage { role := Role.user, content := "Hello" },
        Event.setInput ""] ++
       [Event.apiCall (ApiCall.getUser "k" SAMPLE_USER_ID),
        Event.apiCall (ApiCall.listReplicas "k" SAMPLE_USER_ID),
        Event.setReplicaUuid (some "uuid-1")] ++
       [Event.appendMessage { role := Role.assistant, content := "" },
        Event.setLoading true])).messages =
      stateHello.messages ++ [{ role := Role.user, content := "Hello" },
        { role := Role.assistant, content := "" }] ∧
    (runEvents stateHello
      ([Event.setErrorMsg none,
        Event.appendMessage { role := Role.user, content := "Hello" },
        Event.setInput ""] ++
       [Event.apiCall (ApiCall.getUser "k" SAMPLE_USER_ID),
        Event.apiCall (ApiCall.listReplicas "k" SAMPLE_USER_ID),
        Event.setReplicaUuid (some "uuid-1")] ++
       [Event.appendMessage { role := Role.assistant, content := "" },
        Event.setLoading true])).isLoading = true :=
  exchange_step_order envFound stateHello "uuid-1" _ (by decide) (by decide)
    (by rfl)

/-- **C7.** Every provisioning failure, whichever underlying call failed,
surfaces exactly the one fixed user-facing message telling the user to
check their credential; after the handler completes, precisely that message
is displayed (the underlying `Thrown` detail from the environment never
reaches the error banner). -/
theorem provisioning_error_single_message (env : Env) (s : ChatState)
    (m : String) (ievts : List Event)
    (h1 : jsTrim s.inputValue ≠ "") (h2 : s.localApiKey ≠ "")
    (hi : initializeSessionRun env s.localApiKey s.replicaUuid =
      (Except.error m, ievts)) :
    m = initFailureMessage ∧
    (handleSubmitRun env s).error = some initFailureMessage := by
  have hm : m = initFailureMessage :=
    initRun_error_msg env s.localApiKey s.replicaUuid m (by rw [hi])
  subst hm
  refine ⟨rfl, ?_⟩
  unfold handleSubmitRun handleSubmitEvents
  rw [if_neg h1, if_neg h2, hi]
  dsimp only
  rw [List.append_assoc, runEvents_append, runEvents_append]
  simp [runEvents, applyEvent, extractErrorMessage]

/-- Witness for C7: user creation fails, the displayed error is the fixed
provisioning message. -/
theorem provisioning_error_single_message_witness :
    initFailureMessage = initFailureMessage ∧
    (handleSubmitRun envProvisionFail stateHello).error =
      some initFailureMessage :=
  provisioning_error_single_message envProvisionFail stateHello
    initFailureMessage _ (by decide) (by decide) (by rfl)

/-- **C8.** On an uncached run where the demo-user fetch fails (treated as
not-found) and user creation succeeds: the user is created with the fixed
identifier and the derived `<id>@example.com` email; replicas are then
listed with the user-scoped credential; if one matches the fixed demo slug
(with a truthy uuid) its identifier is adopted and cached with no
replica-creation call; otherwise a replica is created with the fixed demo
metadata and its identifier is adopted and cached. -/
theorem uncached_provisioning_steps (env : Env) (t : Thrown) (key : String)
    (items : List ReplicaRecord)
    (hg : env.getUserResult = Except.error t)
    (hc : env.createUserResult = Except.ok ())
    (hl : env.listReplicasResult = Except.ok (some items)) :
    (∀ r : ReplicaRecord,
      items.find? (fun x => x.slug == SAMPLE_REPLICA_SLUG) = some r →
      r.uuid ≠ "" →
      initializeSessionRun env key none =
        (Except.ok r.uuid,
         [Event.apiCall (ApiCall.getUser key SAMPLE_USER_ID),
          Event.apiCall (ApiCall.createUser key API_VERSION SAMPLE_USER_ID
            (SAMPLE_USER_ID ++ "@example.com") "Sample User"),
          Event.apiCall (ApiCall.listReplicas key SAMPLE_USER_ID),
          Event.setReplicaUuid (some r.uuid)])) ∧
    (items.find? (fun x => x.slug == SAMPLE_REPLICA_SLUG) = none →
      ∀ newReplica : ReplicaRecord,
      env.createReplicaResult = Except.ok newReplica →
      initializeSessionRun env key none =
        (Except.ok newReplica.uuid,
         [Event.apiCall (ApiCall.getUser key SAMPLE_USER_ID),
          Event.apiCall (ApiCall.createUser key API_VERSION SAMPLE_USER_ID
            (SAMPLE_USER_ID ++ "@example.com") "Sample User"),
          Event.apiCall (ApiCall.listReplicas key SAMPLE_USER_ID),
          Event.apiCall (ApiCall.createReplica key SAMPLE_USER_ID API_VERSION
            sampleReplicaRequest),
          Event.setReplicaUuid (some newReplica.uuid)])) := by
  constructor
  · intro r hr hru
    simp [initializeSessionRun, initBody, hg, hc, hl, hr, hru,
      Except.isOk, Except.toBool]
  · intro hr newReplica hcr
    simp [initializeSessionRun, initBody, hg, hc, hl, hr, hcr,
      Except.isOk, Except.toBool]

/-- An environment where the user fetch fails, the user is created, and no
replica matches the demo slug, so one is created. -/
def envCreateAll : Env :=
  { getUserResult := Except.error .prim
    createUserResult := Except.ok ()
    listReplicasResult := Except.ok (some [{ slug := "other", uuid := "x" }])
    createReplicaResult := Except.ok { slug := SAMPLE_REPLICA_SLUG, uuid := "uuid-9" }
    completionResult := Except.ok "Hi there" }

/-- Witness for C8 in the create-everything environment: the full call
trace, ending in creation with the fixed metadata and caching of the new
identifier. -/
theorem uncached_provisioning_steps_witness :
    initializeSessionRun envCreateAll "k" none =
      (Except.ok ("uuid-9" : String),
       [Event.apiCall (ApiCall.getUser "k" SAMPLE_USER_ID),
        Event.apiCall (ApiCall.createUser "k" API_VERSION SAMPLE_USER_ID
          (SAMPLE_USER_ID ++ "@example.com") "Sample User"),
        Event.apiCall (ApiCall.listReplicas "k" SAMPLE_USER_ID),
        Event.apiCall (ApiCall.createReplica "k" SAMPLE_USER_ID API_VERSION
          sampleReplicaRequest),
        Event.setReplicaUuid (some "uuid-9")]) :=
  (uncached_provisioning_steps envCreateAll .prim "k"
      [{ slug := "other", uuid := "x" }] rfl rfl rfl).2
    (by decide) { slug := SAMPLE_REPLICA_SLUG, uuid := "uuid-9" } rfl

/-- **C9.** Successful exchange of `"Hello"` from an empty transcript: the
handler emits the optimistic append, the provisioner events, the
placeholder and in-progress flag, then calls the completion endpoint with
the submitted content, source `"web"` and `skip_chat_history` disabled;
while in progress the transcript is `[user:"Hello", assistant:""]`; on
completion `"Hi there"` the placeholder content is replaced so the
transcript is `[user:"Hello", assistant:"Hi there"]` and in-progress is
cleared. -/
theorem success_exchange_hello (env : Env) (s : ChatState) (replica : String)
    (ievts : List Event)
    (h0 : s.messages = []) (h1 : s.inputValue = "Hello")
    (h2 : s.localApiKey ≠ "")
    (hi : initializeSessionRun env s.localApiKey s.replicaUuid =
      (Except.ok replica, ievts))
    (hc : env.completionResult = Except.ok "Hi there") :
    handleSubmitEvents env s =
      ([Event.setErrorMsg none,
        Event.appendMessage { role := Role.user, content := "Hello" },
        Event.setInput ""] ++ ievts ++
       [Event.appendMessage { role := Role.assistant, content := "" },
        Event.setLoading true,
        Event.apiCall (ApiCall.chatCompletion s.localApiKey SAMPLE_USER_ID
          replica API_VERSION "Hello" "web" false)]) ++
      [Event.setLastMessage { role := Role.assistant, content := "Hi there" },
       Event.setLoading false] ∧
    (runEvents s
      ([Event.setErrorMsg none,
        Event.appendMessage { role := Role.user, content := "Hello" },
        Event.setInput ""] ++ ievts ++
       [Event.appendMessage { role := Role.assistant, content := "" },
        Event.setLoading true])).messages =
      [{ role := Role.user, content := "Hello" },
       { role := Role.assistant, content := "" }] ∧
    (runEvents s
      ([Event.setErrorMsg none,
        Event.appendMessage { role := Role.user, content := "Hello" },
        Event.setInput ""] ++ ievts ++
       [Event.appendMessage { role := Role.assistant, content := "" },
        Event.setLoading true])).isLoading = true ∧
    (handleSubmitRun env s).messages =
      [{ role := Role.user, content := "Hello" },
       { role := Role.assistant, content := "Hi there" }] ∧
    (handleSubmitRun env s).isLoading = false := by
  have htrim : jsTrim s.inputValue ≠ "" := by
    rw [h1]; decide
  have hIEvts : ievts.all eventIsInit = true := by
    have hall := initRun_all_init env s.localApiKey s.replicaUuid
    rw [hi] at hall
    exact hall
  have hInit := runEvents_init_only ievts hIEvts
  have hev : handleSubmitEvents env s =
      ([Event.setErrorMsg none,
        Event.appendMessage { role := Role.user, content := "Hello" },
        Event.setInput ""] ++ ievts ++
       [Event.appendMessage { role := Role.assistant, content := "" },
        Event.setLoading true,
        Event.apiCall (ApiCall.chatCompletion s.localApiKey SAMPLE_USER_ID
          replica API_VERSION "Hello" "web" false)]) ++
      [Event.setLastMessage { role := Role.assistant, content := "Hi there" },
       Event.setLoading false] := by
    unfold handleSubmitEvents
    rw [if_neg htrim, if_neg h2, hi]
    dsimp only
    rw [hc, h1]
  have hMid : (runEvents s
      ([Event.setErrorMsg none,
        Event.appendMessage { role := Role.user, content := "Hello" },
        Event.setInput ""] ++ ievts ++
       [Event.appendMessage { role := Role.assistant, content := "" },
        Event.setLoading true])).messages =
      [{ role := Role.user, content := "Hello" },
       { role := Role.assistant, content := "" }] := by
    rw [List.append_assoc, runEvents_append, runEvents_append]
    have hPre := (hInit (runEvents s
      [Event.setErrorMsg none,
       Event.appendMessage { role := Role.user, content := "Hello" },
       Event.setInput ""])).1
    simp [runEvents, applyEvent] at hPre ⊢
    rw [hPre, h0]
    simp
  refine ⟨hev, hMid, ?_, ?_, ?_⟩
  · rw [List.append_assoc, runEvents_append, runEvents_append]
    simp [runEvents, applyEvent]
  · unfold handleSubmitRun
    rw [hev, runEvents_append]
    simp [runEvents, applyEvent, setLast]
    have hPre := (hInit (runEvents s
      [Event.setErrorMsg none,
       Event.appendMessage { role := Role.user, content := "Hello" },
       Event.setInput ""])).1
    simp [runEvents, applyEvent] at hPre
    rw [hPre, h0]
    simp
  · unfold handleSubmitRun
    rw [hev, runEvents_append]
    simp [runEvents, applyEvent]

/-- Witness for C9 in the found-replica environment from a fresh state. -/
theorem success_exchange_hello_witness :
    handleSubmitEvents envFound stateHello =
      ([Event.setErrorMsg none,
        Event.appendMessage { role := Role.user, content := "Hello" },
        Event.setInput ""] ++
       [Event.apiCall (ApiCall.getUser "k" SAMPLE_USER_ID),
        Event.apiCall (ApiCall.listReplicas "k" SAMPLE_USER_ID),
        Event.setReplicaUuid (some "uuid-1")] ++
       [Event.appendMessage { role := Role.assistant, content := "" },
        Event.setLoading true,
        Event.apiCall (ApiCall.chatCompletion "k" SAMPLE_USER_ID
          "uuid-1" API_VERSION "Hello" "web" false)]) ++
      [Event.setLastMessage { role := Role.assistant, content := "Hi there" },
       Event.setLoading false] ∧
    (runEvents stateHello
      ([Event.setErrorMsg none,
        Event.appendMessage { role := Role.user, content := "Hello" },
        Event.setInput ""] ++
       [Event.apiCall (ApiCall.getUser "k" SAMPLE_USER_ID),
        Event.apiCall (ApiCall.listReplicas "k" SAMPLE_USER_ID),
        Event.setReplicaUuid (some "uuid-1")] ++
       [Event.appendMessage { role := Role.assistant, content := "" },
        Event.setLoading true])).messages =
      [{ role := Role.user, content := "Hello" },
       { role := Role.assistant, content := "" }] ∧
    (runEvents stateHello
      ([Event.setErrorMsg none,
        Event.appendMessage { role := Role.user, content := "Hello" },
        Event.setInput ""] ++
       [Event.apiCall (ApiCall.getUser "k" SAMPLE_USER_ID),
        Event.apiCall (ApiCall.listReplicas "k" SAMPLE_USER_ID),
        Event.setReplicaUuid (some "uuid-1")] ++
       [Event.appendMessage { role := Role.assistant, content := "" },
        Event.setLoading true])).isLoading = true ∧
    (handleSubmitRun envFound stateHello).messages =
      [{ role := Role.user, content := "Hello" },
       { role := Role.assistant, content := "Hi there" }] ∧
    (handleSubmitRun envFound stateHello).isLoading = false :=
  success_exchange_hello envFound stateHello "uuid-1" _ rfl rfl (by decide)
    (by rfl) rfl

/-- Recognizes a `setInput` event. -/
def isSetInput : Event → Bool
  | .setInput _ => true
  | _ => false

/-- Provisioning events contain no `setInput`. -/
theorem countP_setInput_init (es : List Event)
    (h : es.all eventIsInit = true) : es.countP isSetInput = 0 := by
  rw [List.countP_eq_zero]
  intro e he
  have hM := List.all_eq_true.mp h e he
  cases e <;> simp_all [eventIsInit, isSetInput]

/-- **C10.** For every accepted submission: the third emitted event clears
the input field, right after the user-message append and before any network
call; no later event writes the input field (so a failing exchange does not
restore it and the final input is empty); and when the handler completes —
by success or by any failure — the in-progress flag is false. -/
theorem input_cleared_loading_cleared (env : Env) (s : ChatState)
    (h1 : jsTrim s.inputValue ≠ "") (h2 : s.localApiKey ≠ "") :
    (handleSubmitEvents env s).take 3 =
      [Event.setErrorMsg none,
       Event.appendMessage { role := Role.user, content := s.inputValue },
       Event.setInput ""] ∧
    apiCallsOf ((handleSubmitEvents env s).take 3) = [] ∧
    ((handleSubmitEvents env s).drop 3).countP isSetInput = 0 ∧
    (handleSubmitRun env s).inputValue = "" ∧
    (handleSubmitRun env s).isLoading = false := by
  rcases hres : initializeSessionRun env s.localApiKey s.replicaUuid with ⟨r, ievts⟩
  have hIEvts : ievts.all eventIsInit = true := by
    have hall := initRun_all_init env s.localApiKey s.replicaUuid
    rw [hres] at hall
    exact hall
  have hInit := runEvents_init_only ievts hIEvts
  have hcnt := countP_setInput_init ievts hIEvts
  unfold handleSubmitRun handleSubmitEvents
  rw [if_neg h1, if_neg h2, hres]
  cases r with
  | error m =>
    dsimp only
    refine ⟨?_, ?_, ?_, ?_, ?_⟩
    · rw [List.append_assoc]
      simp [List.take_append_eq_append_take]
    · rw [List.append_assoc]
      simp [List.take_append_eq_append_take, apiCallsOf, Event.callOf]
    · rw [List.append_assoc]
      simp [List.drop_append_eq_append_drop, List.countP_append, hcnt,
        isSetInput]
    · rw [List.append_assoc, runEvents_append, runEvents_append]
      have hPre := (hInit (runEvents s
        [Event.setErrorMsg none,
         Event.appendMessage { role := Role.user, content := s.inputValue },
         Event.setInput ""])).2.1
      simp [runEvents, applyEvent] at hPre ⊢
      exact hPre
    · rw [List.append_assoc, runEvents_append, runEvents_append]
      simp [runEvents, applyEvent]
  | ok replica =>
    cases hc : env.completionResult with
    | ok content =>
      dsimp only
      refine ⟨?_, ?_, ?_, ?_, ?_⟩
      · rw [List.append_assoc, List.append_assoc]
        simp [List.take_append_eq_append_take]
      · rw [List.append_assoc, List.append_assoc]
        simp [List.take_append_eq_append_take, apiCallsOf, Event.callOf]
      · rw [List.append_assoc, List.append_assoc]
        simp [List.drop_append_eq_append_drop, List.countP_append, hcnt,
          isSetInput]
      · rw [List.append_assoc, List.append_assoc, ← List.append_assoc ievts,
          runEvents_append, runEvents_append]
        have hPre := (hInit (runEvents s
          [Event.setErrorMsg none,
           Event.appendMessage { role := Role.user, content := s.inputValue },
           Event.setInput ""])).2.1
        simp [runEvents, applyEvent] at hPre ⊢
        exact hPre
      · rw [List.append_assoc, List.append_assoc, ← List.append_assoc ievts,
          runEvents_append, runEvents_append]
        simp [runEvents, applyEvent]
    | error thrown =>
      dsimp only
      refine ⟨?_, ?_, ?_, ?_, ?_⟩
      · rw [List.append_assoc, List.append_assoc]
        simp [List.take_append_eq_append_take]
      · rw [List.append_assoc, List.append_assoc]
        simp [List.take_append_eq_append_take, apiCallsOf, Event.callOf]
      · rw [List.append_assoc, List.append_assoc]
        simp [List.drop_append_eq_append_drop, List.countP_append, hcnt,
          isSetInput]
      · rw [List.append_assoc, List.append_assoc, ← List.append_assoc ievts,
          runEvents_append, runEvents_append]
        have hPre := (hInit (runEvents s
          [Event.setErrorMsg none,
           Event.appendMessage { role := Role.user, content := s.inputValue },
           Event.setInput ""])).2.1
        simp [runEvents, applyEvent] at hPre ⊢
        exact hPre
      · rw [List.append_assoc, List.append_assoc, ← List.append_assoc ievts,
          runEvents_append, runEvents_append]
        simp [runEvents, applyEvent]

/-- Witness for C10 in the found-replica environment from a fresh state. -/
theorem input_cleared_loading_cleared_witness :
    (handleSubmitEvents envFound stateHello).take 3 =
      [Event.setErrorMsg none,
       Event.appendMessage { role := Role.user, content := "Hello" },
       Event.setInput ""] ∧
    apiCallsOf ((handleSubmitEvents envFound stateHello).take 3) = [] ∧
    ((handleSubmitEvents envFound stateHello).drop 3).countP isSetInput = 0 ∧
    (handleSubmitRun envFound stateHello).inputValue = "" ∧
    (handleSubmitRun envFound stateHello).isLoading = false :=
  input_cleared_loading_cleared envFound stateHello (by decide) (by decide)

end CareerAI
